import Mathlib

/-!
Verification development for a single-page generative-image form
(`src/index.tsx`).  The TypeScript glue layer is shallowly embedded:
the process-wide mutable variables and the DOM pieces the handlers touch
become an explicit `AppState` record, the remote SDK calls become
oracles `GenContentRequest → Except Unit GenContentResponse` (a thrown
error is `Except.error ()`), and each event handler becomes a pure state
transformer.  JavaScript truthiness on the nullable string variables is
modelled by `falsy` (null or empty string).  DOM elements are assumed
present (the `if (!imageGallery || !promptInput) return;` guard and the
`?.` accesses never fire on the real page, where every element exists).
-/

namespace ImagenApp

/-- The four operation modes (`type Mode` in the source). -/
inductive Mode where
  | textToImage
  | imageEdit
  | imageUpscale
  | faceSwap
  deriving DecidableEq, Repr

/-- Response modalities requested from the content-edit call. -/
inductive Modality where
  | IMAGE
  | TEXT
  deriving DecidableEq, Repr

/-- The `inlineData` of a request/response part; the SDK declares
both fields optional. -/
structure InlineData where
  data : Option String
  mimeType : Option String
  deriving DecidableEq, Repr

/-- One part of a multimodal request or response. -/
structure Part where
  inlineData : Option InlineData
  text : Option String
  deriving DecidableEq, Repr

/-- The `content` of a candidate; `parts` is optional in the SDK. -/
structure Content where
  parts : Option (List Part)
  deriving DecidableEq, Repr

/-- One response candidate; `content` is optional in the SDK. -/
structure Candidate where
  content : Option Content
  deriving DecidableEq, Repr

/-- Response of `ai.models.generateContent`; `candidates` is optional. -/
structure GenContentResponse where
  candidates : Option (List Candidate)
  deriving DecidableEq, Repr

/-- The nested image object of a generated image. -/
structure ImageObj where
  imageBytes : String
  deriving DecidableEq, Repr

/-- One entry of `response.generatedImages`. -/
structure GeneratedImage where
  image : ImageObj
  deriving DecidableEq, Repr

/-- Response of `ai.models.generateImages`. -/
structure GenImagesResponse where
  generatedImages : List GeneratedImage
  deriving DecidableEq, Repr

/-- The request sent by `ai.models.generateContent` as `generate()`
builds it: model name, ordered parts, response modalities. -/
structure GenContentRequest where
  model : String
  parts : List Part
  responseModalities : List Modality
  deriving DecidableEq, Repr

/-- The request sent by `ai.models.generateImages` as `generate()`
builds it. -/
structure GenImagesRequest where
  model : String
  prompt : String
  numberOfImages : Nat
  outputMimeType : String
  aspectRatio : String
  negativePrompt : String
  deriving DecidableEq, Repr

/-- A remote API call recorded during one `generate()` cycle. -/
inductive RemoteCall where
  | content (req : GenContentRequest)
  | images (req : GenImagesRequest)
  deriving DecidableEq, Repr

/-- The process-wide mutable state plus the DOM state the handlers
read and write: the six nullable slot variables, the text inputs, the
gallery contents (list of image URLs in order), the loading flag, the
per-slot preview/drop-zone state, and the fieldset visibility flags. -/
structure AppState where
  uploadedImageBase64 : Option String
  uploadedImageMimeType : Option String
  sourceImageBase64 : Option String
  sourceImageMimeType : Option String
  targetImageBase64 : Option String
  targetImageMimeType : Option String
  promptValue : String
  negativePromptValue : String
  gallery : List String
  loading : Bool
  imageUploadInputValue : String
  imagePreviewSrc : String
  imagePreviewContainerHidden : Bool
  dropZoneWrapperHidden : Bool
  sourceImageUploadInputValue : String
  sourceImagePreviewSrc : String
  sourceImagePreviewContainerHidden : Bool
  sourceDropZoneWrapperHidden : Bool
  targetImageUploadInputValue : String
  targetImagePreviewSrc : String
  targetImagePreviewContainerHidden : Bool
  targetDropZoneWrapperHidden : Bool
  promptFieldsetHidden : Bool
  imageUploadFieldsetHidden : Bool
  faceSwapFieldsetHidden : Bool
  negativePromptFieldsetHidden : Bool
  aspectRatioFieldsetHidden : Bool
  styleFieldsetHidden : Bool
  deriving DecidableEq, Repr

/-- JS truthiness of a plain string: only `""` is falsy.  Stated at
the character-list level so the predicate is kernel-executable. -/
def strFalsy (s : String) : Bool := s.data.isEmpty

/-- JavaScript truthiness of a nullable string: `null` and `""` are
falsy, every other string is truthy. -/
def falsy : Option String → Bool
  | none => true
  | some s => strFalsy s

/-- JS `!s.trim()`: the string is blank after trimming, i.e. every
character is whitespace (the empty string included).  Stated at the
character-list level so the predicate is kernel-executable. -/
def isBlank (s : String) : Bool := s.data.all Char.isWhitespace

/-- JS `s.startsWith(p)`, at the character-list level. -/
def strStartsWith (s p : String) : Bool := p.data.isPrefixOf s.data

/-- JS `s.split(',')`: the comma-separated segments of the string, at
the character-list level. -/
def jsSplitComma (s : String) : List String := (s.data.splitOn ',').map String.mk

/-- Model name for the text-to-image call. -/
def textToImageModel : String := "imagen-4.0-generate-001"

/-- Model name for the content-edit calls. -/
def imageEditModel : String := "gemini-2.5-flash-image-preview"

/-- The fixed instruction substituted for the prompt in upscale mode. -/
def upscaleInstruction : String :=
  "Upscale this image to a higher resolution, enhancing details without altering the content or style."

/-- The fixed instruction sent in face-swap mode. -/
def faceSwapInstruction : String :=
  "From the first image provided, extract the face. Then, seamlessly swap this face onto the most prominent person in the second image provided. Ensure the lighting, skin tone, and angle of the new face match the target image's environment."

/-- Alert shown when the single-image slot is empty on submit. -/
def uploadAlertMsg (m : Mode) : String :=
  "Please upload an image for " ++
    (if m = Mode.imageEdit then "editing" else "upscaling") ++ "."

/-- Alert shown when the edit prompt is blank. -/
def editPromptAlertMsg : String := "Please enter a prompt for editing."

/-- Alert shown when a face-swap slot is empty on submit. -/
def faceSwapAlertMsg : String :=
  "Please upload both a source face and a target image for face swap."

/-- Alert shown when the text-to-image prompt is blank. -/
def promptAlertMsg : String := "Please enter a prompt."

/-- The generic alert shown by the `catch` block of `generate()`. -/
def genericErrorMsg : String :=
  "An error occurred while generating images. Check the console for details."

/-- JavaScript template-literal interpolation of a possibly-undefined
string: `undefined` prints as the text `"undefined"`. -/
def jsInterp : Option String → String
  | none => "undefined"
  | some s => s

/-- The `data:` URL built by the extraction loop for one response part,
`none` when the part carries no `inlineData`
(`if (part.inlineData) { ... }` in the source). -/
def partToUrl (p : Part) : Option String :=
  p.inlineData.map fun d =>
    "data:" ++ jsInterp d.mimeType ++ ";base64," ++ jsInterp d.data

/-- The unguarded extraction
`response.candidates[0].content.parts.forEach(...)`: each missing link
(`candidates` undefined, no first candidate, `content` undefined,
`parts` undefined) makes the property access throw, modelled as
`Except.error ()`; otherwise the appended URLs in part order. -/
def extractInlineUrls (r : GenContentResponse) : Except Unit (List String) :=
  match r.candidates with
  | none => .error ()
  | some [] => .error ()
  | some (c :: _) =>
    match c.content with
    | none => .error ()
    | some ct =>
      match ct.parts with
      | none => .error ()
      | some ps => .ok (ps.filterMap partToUrl)

/-- Result of one `generate()` cycle: the state when the function
returns, the remote calls it made in order, and the alerts it showed
in order. -/
structure GenOutcome where
  finalState : AppState
  calls : List RemoteCall
  alerts : List String
  deriving Repr

/-- Function `generate()` (src/index.tsx lines 73–185), as a pure function of
the state, the checked radio values (`mode`, `imageStyle`,
`aspectRatio`), and two oracles standing for the remote SDK calls.
It first clears the gallery and sets the loading flag, then runs the
mode dispatch inside try/catch/finally: validation failures alert and
return early, a thrown oracle error or extraction error is caught and
alerts the generic message, and the `finally` clause clears the
loading flag on every path. -/
def generate (s0 : AppState) (selectedMode : Mode) (selectedStyle : String)
    (selectedAspectRatio : String)
    (contentOracle : GenContentRequest → Except Unit GenContentResponse)
    (imagesOracle : GenImagesRequest → Except Unit GenImagesResponse) :
    GenOutcome :=
  let s := { s0 with gallery := [], loading := true }
  match selectedMode with
  | .imageEdit | .imageUpscale =>
    if falsy s.uploadedImageBase64 || falsy s.uploadedImageMimeType then
      { finalState := { s with loading := false }, calls := [],
        alerts := [uploadAlertMsg selectedMode] }
    else if selectedMode = .imageEdit ∧ isBlank s.promptValue then
      { finalState := { s with loading := false }, calls := [],
        alerts := [editPromptAlertMsg] }
    else
      let promptForEdit :=
        if selectedMode = .imageEdit then s.promptValue else upscaleInstruction
      let req : GenContentRequest :=
        { model := imageEditModel,
          parts := [
            { inlineData := some { data := s.uploadedImageBase64,
                                   mimeType := s.uploadedImageMimeType },
              text := none },
            { inlineData := none, text := some promptForEdit } ],
          responseModalities := [Modality.IMAGE, Modality.TEXT] }
      match contentOracle req with
      | .error _ =>
        { finalState := { s with loading := false },
          calls := [.content req], alerts := [genericErrorMsg] }
      | .ok r =>
        match extractInlineUrls r with
        | .error _ =>
          { finalState := { s with loading := false },
            calls := [.content req], alerts := [genericErrorMsg] }
        | .ok urls =>
          { finalState := { s with gallery := urls, loading := false },
            calls := [.content req], alerts := [] }
  | .faceSwap =>
    if falsy s.sourceImageBase64 || falsy s.targetImageBase64 then
      { finalState := { s with loading := false }, calls := [],
        alerts := [faceSwapAlertMsg] }
    else
      let req : GenContentRequest :=
        { model := imageEditModel,
          parts := [
            { inlineData := some { data := s.sourceImageBase64,
                                   mimeType := s.sourceImageMimeType },
              text := none },
            { inlineData := some { data := s.targetImageBase64,
                                   mimeType := s.targetImageMimeType },
              text := none },
            { inlineData := none, text := some faceSwapInstruction } ],
          responseModalities := [Modality.IMAGE, Modality.TEXT] }
      match contentOracle req with
      | .error _ =>
        { finalState := { s with loading := false },
          calls := [.content req], alerts := [genericErrorMsg] }
      | .ok r =>
        match extractInlineUrls r with
        | .error _ =>
          { finalState := { s with loading := false },
            calls := [.content req], alerts := [genericErrorMsg] }
        | .ok urls =>
          { finalState := { s with gallery := urls, loading := false },
            calls := [.content req], alerts := [] }
  | .textToImage =>
    let userPrompt := s.promptValue
    if isBlank userPrompt then
      { finalState := { s with loading := false }, calls := [],
        alerts := [promptAlertMsg] }
    else
      let finalPrompt :=
        if strFalsy selectedStyle then userPrompt
        else selectedStyle ++ ", " ++ userPrompt
      let req : GenImagesRequest :=
        { model := textToImageModel, prompt := finalPrompt,
          numberOfImages := 4, outputMimeType := "image/png",
          aspectRatio := selectedAspectRatio,
          negativePrompt := s.negativePromptValue }
      match imagesOracle req with
      | .error _ =>
        { finalState := { s with loading := false },
          calls := [.images req], alerts := [genericErrorMsg] }
      | .ok r =>
        { finalState :=
            { s with
              gallery := r.generatedImages.map fun gi =>
                "data:image/png;base64," ++ gi.image.imageBytes,
              loading := false },
          calls := [.images req], alerts := [] }

/-- A browser `File` as the encoder sees it: its declared content type
and the data URL `FileReader.readAsDataURL` would produce for it. -/
structure JSFile where
  type : String
  dataUrl : String
  deriving DecidableEq, Repr

/-- Successful result of `fileToBase64`. -/
structure EncodedFile where
  base64 : String
  mimeType : String
  deriving DecidableEq, Repr

/-- Function `fileToBase64` (src/index.tsx lines 218–232): rejects files whose
declared type does not start with `image/`, otherwise takes the
portion of the data URL after the first comma
(`result.split(',')[1]`) and the file's declared type. -/
def fileToBase64 (file : JSFile) : Except String EncodedFile :=
  if ¬ strStartsWith file.type "image/" then
    .error "File is not an image."
  else
    .ok { base64 := (jsSplitComma file.dataUrl).getD 1 "",
          mimeType := file.type }

/-- Function `handleSingleFile` (lines 237–248): on a successful encoding store
the image in the single slot and show its preview; on failure alert
the error's message and change nothing. Returns the new state and the
alerts shown. -/
def handleSingleFile (file : JSFile) (s : AppState) : AppState × List String :=
  match fileToBase64 file with
  | .error msg => (s, [msg])
  | .ok e =>
    ({ s with uploadedImageBase64 := some e.base64,
              uploadedImageMimeType := some e.mimeType,
              imagePreviewSrc := "data:" ++ e.mimeType ++ ";base64," ++ e.base64,
              imagePreviewContainerHidden := false,
              dropZoneWrapperHidden := true }, [])

/-- Function `handleSourceFile` (lines 253–264), same shape for the face-swap
source slot. -/
def handleSourceFile (file : JSFile) (s : AppState) : AppState × List String :=
  match fileToBase64 file with
  | .error msg => (s, [msg])
  | .ok e =>
    ({ s with sourceImageBase64 := some e.base64,
              sourceImageMimeType := some e.mimeType,
              sourceImagePreviewSrc := "data:" ++ e.mimeType ++ ";base64," ++ e.base64,
              sourceImagePreviewContainerHidden := false,
              sourceDropZoneWrapperHidden := true }, [])

/-- Function `handleTargetFile` (lines 269–280), same shape for the face-swap
target slot. -/
def handleTargetFile (file : JSFile) (s : AppState) : AppState × List String :=
  match fileToBase64 file with
  | .error msg => (s, [msg])
  | .ok e =>
    ({ s with targetImageBase64 := some e.base64,
              targetImageMimeType := some e.mimeType,
              targetImagePreviewSrc := "data:" ++ e.mimeType ++ ";base64," ++ e.base64,
              targetImagePreviewContainerHidden := false,
              targetDropZoneWrapperHidden := true }, [])

/-- Function `removeSingleUploadedImage` (lines 282–288): null the stored image
and MIME type, clear the file input, hide the preview, show the
drop zone. -/
def removeSingleUploadedImage (s : AppState) : AppState :=
  { s with uploadedImageBase64 := none, uploadedImageMimeType := none,
           imageUploadInputValue := "",
           imagePreviewContainerHidden := true,
           dropZoneWrapperHidden := false }

/-- Function `removeSourceImage` (lines 290–296). -/
def removeSourceImage (s : AppState) : AppState :=
  { s with sourceImageBase64 := none, sourceImageMimeType := none,
           sourceImageUploadInputValue := "",
           sourceImagePreviewContainerHidden := true,
           sourceDropZoneWrapperHidden := false }

/-- Function `removeTargetImage` (lines 298–304). -/
def removeTargetImage (s : AppState) : AppState :=
  { s with targetImageBase64 := none, targetImageMimeType := none,
           targetImageUploadInputValue := "",
           targetImagePreviewContainerHidden := true,
           targetDropZoneWrapperHidden := false }

/-- Function `clearAll` (lines 306–313): empty the prompt and negative-prompt
fields, empty the gallery, then reset all three slots. -/
def clearAll (s : AppState) : AppState :=
  removeTargetImage (removeSourceImage (removeSingleUploadedImage
    { s with promptValue := "", negativePromptValue := "", gallery := [] }))

/-- Function `updateUiForMode` (lines 318–343): hide every fieldset, show the
ones for the new mode, and clear the upload slots the new mode does
not use. -/
def updateUiForMode (mode : Mode) (s : AppState) : AppState :=
  let s :=
    { s with promptFieldsetHidden := true, imageUploadFieldsetHidden := true,
             faceSwapFieldsetHidden := true, negativePromptFieldsetHidden := true,
             aspectRatioFieldsetHidden := true, styleFieldsetHidden := true }
  match mode with
  | .textToImage =>
    removeTargetImage (removeSourceImage (removeSingleUploadedImage
      { s with promptFieldsetHidden := false,
               negativePromptFieldsetHidden := false,
               aspectRatioFieldsetHidden := false,
               styleFieldsetHidden := false }))
  | .imageEdit =>
    removeTargetImage (removeSourceImage
      { s with promptFieldsetHidden := false,
               imageUploadFieldsetHidden := false })
  | .imageUpscale =>
    removeTargetImage (removeSourceImage
      { s with imageUploadFieldsetHidden := false })
  | .faceSwap =>
    removeSingleUploadedImage { s with faceSwapFieldsetHidden := false }

/-- A fully empty app state, used to instantiate the theorems on
concrete inputs. -/
def baseState : AppState :=
  { uploadedImageBase64 := none, uploadedImageMimeType := none,
    sourceImageBase64 := none, sourceImageMimeType := none,
    targetImageBase64 := none, targetImageMimeType := none,
    promptValue := "", negativePromptValue := "", gallery := [],
    loading := false,
    imageUploadInputValue := "", imagePreviewSrc := "",
    imagePreviewContainerHidden := true, dropZoneWrapperHidden := false,
    sourceImageUploadInputValue := "", sourceImagePreviewSrc := "",
    sourceImagePreviewContainerHidden := true,
    sourceDropZoneWrapperHidden := false,
    targetImageUploadInputValue := "", targetImagePreviewSrc := "",
    targetImagePreviewContainerHidden := true,
    targetDropZoneWrapperHidden := false,
    promptFieldsetHidden := false, imageUploadFieldsetHidden := true,
    faceSwapFieldsetHidden := true, negativePromptFieldsetHidden := false,
    aspectRatioFieldsetHidden := false, styleFieldsetHidden := false }

/-- An oracle where every content-edit call throws. -/
def errContentOracle : GenContentRequest → Except Unit GenContentResponse :=
  fun _ => .error ()

/-- An oracle where every image-generation call throws. -/
def errImagesOracle : GenImagesRequest → Except Unit GenImagesResponse :=
  fun _ => .error ()

/-- The gallery contents the spec prescribes for a content-edit
response's parts, written after the spec's words as a second
definition to compare with the extraction the code performs: one
entry per part carrying inline image data, in part order, each the
`data:` URL built from the part's MIME type and base64 bytes. -/
def specGalleryOfParts : List Part → List String
  | [] => []
  | p :: rest =>
    match p.inlineData with
    | some d =>
      ("data:" ++ jsInterp d.mimeType ++ ";base64," ++ jsInterp d.data)
        :: specGalleryOfParts rest
    | none => specGalleryOfParts rest

/-- The per-mode precondition `generate()` checks before its
content-edit call: a truthy single image plus, for ImageEdit, a
non-blank prompt; truthy source and target images for FaceSwap.
`False` for TextToImage, which makes no content-edit call. -/
def editPrecondOk (s : AppState) : Mode → Prop
  | .imageEdit =>
    falsy s.uploadedImageBase64 = false ∧
    falsy s.uploadedImageMimeType = false ∧
    isBlank s.promptValue = false
  | .imageUpscale =>
    falsy s.uploadedImageBase64 = false ∧
    falsy s.uploadedImageMimeType = false
  | .faceSwap =>
    falsy s.sourceImageBase64 = false ∧ falsy s.targetImageBase64 = false
  | .textToImage => False

/-- A state with the single-image slot filled and an edit prompt. -/
def editState : AppState :=
  { baseState with uploadedImageBase64 := some "QUJD",
                   uploadedImageMimeType := some "image/png",
                   promptValue := "make the sky purple" }

/-- A state with every slot filled and a prompt typed in. -/
def fullState : AppState :=
  { baseState with uploadedImageBase64 := some "QUJD",
                   uploadedImageMimeType := some "image/png",
                   sourceImageBase64 := some "U1JD",
                   sourceImageMimeType := some "image/png",
                   targetImageBase64 := some "VEdU",
                   targetImageMimeType := some "image/jpeg",
                   promptValue := "this prompt must be ignored" }

/-- A state for a TextToImage submission. -/
def ttiState : AppState :=
  { baseState with promptValue := "a red bicycle" }

/-- A stub response part carrying inline image data. -/
def stubPartA : Part :=
  { inlineData := some { data := some "AAAA", mimeType := some "image/png" },
    text := none }

/-- A second stub inline-image part with a different payload. -/
def stubPartB : Part :=
  { inlineData := some { data := some "BBBB", mimeType := some "image/jpeg" },
    text := none }

/-- A stub text-only response part (no inline data). -/
def stubPartText : Part :=
  { inlineData := none, text := some "Here are your images." }

/-- A stub content-edit response with two inline-image parts around a
text part. -/
def stubContentResponse : GenContentResponse :=
  { candidates :=
      some [{ content := some { parts := some [stubPartA, stubPartText, stubPartB] } }] }

/-- A stub content-edit response with an empty candidate list. -/
def emptyCandidatesResponse : GenContentResponse :=
  { candidates := some [] }

/-- A stub image-generation response with two generated images. -/
def stubImagesResponse : GenImagesResponse :=
  { generatedImages :=
      [{ image := { imageBytes := "SU1HMQ==" } },
       { image := { imageBytes := "SU1HMg==" } }] }

/-- C1: for every mode, if that mode's preconditions are violated —
TextToImage or ImageEdit with a prompt that is blank after trimming,
ImageEdit or ImageUpscale with no image in the single-image slot, or
FaceSwap with at least one of the source/target slots empty — then
`generate()` makes no remote API call, shows a user-visible message,
and returns with the loading indicator cleared. -/
theorem generate_validation_aborts (s : AppState) (m : Mode)
    (style ar : String)
    (co : GenContentRequest → Except Unit GenContentResponse)
    (io : GenImagesRequest → Except Unit GenImagesResponse)
    (hviol :
      (m = Mode.textToImage ∧ isBlank s.promptValue = true) ∨
      (m = Mode.imageEdit ∧ isBlank s.promptValue = true) ∨
      ((m = Mode.imageEdit ∨ m = Mode.imageUpscale) ∧
        s.uploadedImageBase64 = none) ∨
      (m = Mode.faceSwap ∧
        (s.sourceImageBase64 = none ∨ s.targetImageBase64 = none))) :
    (generate s m style ar co io).calls = [] ∧
    (generate s m style ar co io).alerts ≠ [] ∧
    (generate s m style ar co io).finalState.loading = false := by
  rcases hviol with ⟨hm, hp⟩ | ⟨hm, hp⟩ | ⟨hm, hs⟩ | ⟨hm, hs⟩
  · subst hm
    simp [generate, hp]
  · subst hm
    by_cases himg : (falsy s.uploadedImageBase64 || falsy s.uploadedImageMimeType) = true
    · simp [generate, himg]
    · simp only [Bool.not_eq_true] at himg
      simp [generate, himg, hp]
  · rcases hm with hm | hm <;> subst hm <;> simp [generate, falsy, hs]
  · subst hm
    rcases hs with hs | hs <;> simp [generate, falsy, hs]

/-- Closed instance of `generate_validation_aborts`: a blank
TextToImage prompt aborts the cycle. -/
theorem generate_validation_aborts_witness :
    (generate baseState Mode.textToImage "" "1:1" errContentOracle
      errImagesOracle).calls = [] ∧
    (generate baseState Mode.textToImage "" "1:1" errContentOracle
      errImagesOracle).alerts ≠ [] ∧
    (generate baseState Mode.textToImage "" "1:1" errContentOracle
      errImagesOracle).finalState.loading = false :=
  generate_validation_aborts baseState Mode.textToImage "" "1:1"
    errContentOracle errImagesOracle (Or.inl ⟨rfl, by decide⟩)

/-- C4: switching to FaceSwap clears the single-image slot and leaves
source/target intact; switching to ImageEdit or ImageUpscale clears
both source and target slots and leaves the single-image slot intact;
switching to TextToImage clears all three slots. -/
theorem updateUiForMode_slot_invalidation (s : AppState) :
    ((updateUiForMode Mode.faceSwap s).uploadedImageBase64 = none ∧
     (updateUiForMode Mode.faceSwap s).uploadedImageMimeType = none ∧
     (updateUiForMode Mode.faceSwap s).sourceImageBase64 = s.sourceImageBase64 ∧
     (updateUiForMode Mode.faceSwap s).sourceImageMimeType = s.sourceImageMimeType ∧
     (updateUiForMode Mode.faceSwap s).targetImageBase64 = s.targetImageBase64 ∧
     (updateUiForMode Mode.faceSwap s).targetImageMimeType = s.targetImageMimeType) ∧
    ((updateUiForMode Mode.imageEdit s).sourceImageBase64 = none ∧
     (updateUiForMode Mode.imageEdit s).sourceImageMimeType = none ∧
     (updateUiForMode Mode.imageEdit s).targetImageBase64 = none ∧
     (updateUiForMode Mode.imageEdit s).targetImageMimeType = none ∧
     (updateUiForMode Mode.imageEdit s).uploadedImageBase64 = s.uploadedImageBase64 ∧
     (updateUiForMode Mode.imageEdit s).uploadedImageMimeType = s.uploadedImageMimeType) ∧
    ((updateUiForMode Mode.imageUpscale s).sourceImageBase64 = none ∧
     (updateUiForMode Mode.imageUpscale s).sourceImageMimeType = none ∧
     (updateUiForMode Mode.imageUpscale s).targetImageBase64 = none ∧
     (updateUiForMode Mode.imageUpscale s).targetImageMimeType = none ∧
     (updateUiForMode Mode.imageUpscale s).uploadedImageBase64 = s.uploadedImageBase64 ∧
     (updateUiForMode Mode.imageUpscale s).uploadedImageMimeType = s.uploadedImageMimeType) ∧
    ((updateUiForMode Mode.textToImage s).uploadedImageBase64 = none ∧
     (updateUiForMode Mode.textToImage s).uploadedImageMimeType = none ∧
     (updateUiForMode Mode.textToImage s).sourceImageBase64 = none ∧
     (updateUiForMode Mode.textToImage s).sourceImageMimeType = none ∧
     (updateUiForMode Mode.textToImage s).targetImageBase64 = none ∧
     (updateUiForMode Mode.textToImage s).targetImageMimeType = none) := by
  refine ⟨⟨rfl, rfl, rfl, rfl, rfl, rfl⟩, ⟨rfl, rfl, rfl, rfl, rfl, rfl⟩,
    ⟨rfl, rfl, rfl, rfl, rfl, rfl⟩, ⟨rfl, rfl, rfl, rfl, rfl, rfl⟩⟩

/-- C5: a file whose declared content type does not start with
`image/` makes the encoder fail with the not-an-image error; each
upload handler then shows that message and leaves the state fully
unchanged (stored image, MIME type, preview and drop-zone state
included). -/
theorem fileToBase64_rejects_non_image (file : JSFile) (s : AppState)
    (h : strStartsWith file.type "image/" = false) :
    fileToBase64 file = .error "File is not an image." ∧
    handleSingleFile file s = (s, ["File is not an image."]) ∧
    handleSourceFile file s = (s, ["File is not an image."]) ∧
    handleTargetFile file s = (s, ["File is not an image."]) := by
  have henc : fileToBase64 file = .error "File is not an image." := by
    simp [fileToBase64, h]
  refine ⟨henc, ?_, ?_, ?_⟩ <;>
    simp [handleSingleFile, handleSourceFile, handleTargetFile, henc]

/-- Closed instance of `fileToBase64_rejects_non_image` on a
`text/plain` file. -/
theorem fileToBase64_rejects_non_image_witness :
    fileToBase64 { type := "text/plain", dataUrl := "data:text/plain;base64,aGk=" }
      = .error "File is not an image." ∧
    handleSingleFile { type := "text/plain", dataUrl := "data:text/plain;base64,aGk=" }
      baseState = (baseState, ["File is not an image."]) ∧
    handleSourceFile { type := "text/plain", dataUrl := "data:text/plain;base64,aGk=" }
      baseState = (baseState, ["File is not an image."]) ∧
    handleTargetFile { type := "text/plain", dataUrl := "data:text/plain;base64,aGk=" }
      baseState = (baseState, ["File is not an image."]) :=
  fileToBase64_rejects_non_image
    { type := "text/plain", dataUrl := "data:text/plain;base64,aGk=" }
    baseState (by decide)

/-- C8: the clear-all action empties the gallery, resets all three
upload slots (stored image and MIME type absent, file input cleared,
drop zone shown, preview hidden), and sets both the prompt and
negative-prompt fields to the empty string. -/
theorem clearAll_resets (s : AppState) :
    (clearAll s).gallery = [] ∧
    (clearAll s).promptValue = "" ∧
    (clearAll s).negativePromptValue = "" ∧
    (clearAll s).uploadedImageBase64 = none ∧
    (clearAll s).uploadedImageMimeType = none ∧
    (clearAll s).imageUploadInputValue = "" ∧
    (clearAll s).imagePreviewContainerHidden = true ∧
    (clearAll s).dropZoneWrapperHidden = false ∧
    (clearAll s).sourceImageBase64 = none ∧
    (clearAll s).sourceImageMimeType = none ∧
    (clearAll s).sourceImageUploadInputValue = "" ∧
    (clearAll s).sourceImagePreviewContainerHidden = true ∧
    (clearAll s).sourceDropZoneWrapperHidden = false ∧
    (clearAll s).targetImageBase64 = none ∧
    (clearAll s).targetImageMimeType = none ∧
    (clearAll s).targetImageUploadInputValue = "" ∧
    (clearAll s).targetImagePreviewContainerHidden = true ∧
    (clearAll s).targetDropZoneWrapperHidden = false := by
  refine ⟨rfl, rfl, rfl, rfl, rfl, rfl, rfl, rfl, rfl, rfl, rfl, rfl, rfl,
    rfl, rfl, rfl, rfl, rfl⟩

/-- A string is JS-falsy exactly when it is empty. -/
theorem strFalsy_eq_true_iff (s : String) : strFalsy s = true ↔ s = "" := by
  constructor
  · intro h
    cases s with
    | mk data =>
      cases data with
      | nil => rfl
      | cons c cs => simp [strFalsy] at h
  · intro h
    subst h
    rfl

/-- The code's extraction over a part list agrees with the gallery the
spec prescribes for those parts. -/
theorem filterMap_partToUrl_eq_spec (ps : List Part) :
    ps.filterMap partToUrl = specGalleryOfParts ps := by
  induction ps with
  | nil => rfl
  | cons p rest ih =>
    cases h : p.inlineData with
    | none => simp [List.filterMap_cons, partToUrl, h, specGalleryOfParts, ih]
    | some d => simp [List.filterMap_cons, partToUrl, h, specGalleryOfParts, ih]

/-- C2: for every content-edit response (ImageEdit, ImageUpscale,
FaceSwap), `generate()` fills the gallery with exactly one entry per
response part carrying inline image data, in part order, each entry
the `data:` URL built from that part's MIME type and base64 bytes;
parts without inline data produce no entry (the gallery equals
`specGalleryOfParts`, the spec's description of that list). -/
theorem generate_edit_gallery_matches_spec (s : AppState) (m : Mode)
    (style ar : String)
    (io : GenImagesRequest → Except Unit GenImagesResponse)
    (r : GenContentResponse) (c : Candidate) (cs : List Candidate)
    (ct : Content) (ps : List Part)
    (hok : editPrecondOk s m)
    (hr : r.candidates = some (c :: cs))
    (hc : c.content = some ct)
    (hp : ct.parts = some ps) :
    (generate s m style ar (fun _ => Except.ok r) io).finalState.gallery =
      specGalleryOfParts ps := by
  have hex : extractInlineUrls r = .ok (ps.filterMap partToUrl) := by
    simp [extractInlineUrls, hr, hc, hp]
  cases m with
  | textToImage => exact hok.elim
  | imageEdit =>
    obtain ⟨h1, h2, h3⟩ := hok
    simp [generate, h1, h2, h3, hex, filterMap_partToUrl_eq_spec]
  | imageUpscale =>
    obtain ⟨h1, h2⟩ := hok
    simp [generate, h1, h2, hex, filterMap_partToUrl_eq_spec]
  | faceSwap =>
    obtain ⟨h1, h2⟩ := hok
    simp [generate, h1, h2, hex, filterMap_partToUrl_eq_spec]

/-- Closed instance of `generate_edit_gallery_matches_spec`: an
ImageEdit submission whose stub response holds two inline-image parts
around a text part yields exactly the two prescribed entries. -/
theorem generate_edit_gallery_matches_spec_witness :
    (generate editState Mode.imageEdit "" "1:1"
        (fun _ => Except.ok stubContentResponse)
        errImagesOracle).finalState.gallery =
      specGalleryOfParts [stubPartA, stubPartText, stubPartB] :=
  generate_edit_gallery_matches_spec editState Mode.imageEdit "" "1:1"
    errImagesOracle stubContentResponse
    { content := some { parts := some [stubPartA, stubPartText, stubPartB] } }
    [] { parts := some [stubPartA, stubPartText, stubPartB] }
    [stubPartA, stubPartText, stubPartB]
    ⟨by decide, by decide, by decide⟩ rfl rfl rfl

/-- C3: a TextToImage submission with a non-blank prompt sends exactly
one image-generation request whose final prompt is the user prompt
verbatim when no style is selected and `style ++ ", " ++ prompt` when
one is, with `numberOfImages = 4` and output MIME type `image/png`;
the gallery then receives one `data:image/png;base64` entry per
returned generated image. -/
theorem generate_textToImage_request_and_gallery (s : AppState)
    (style ar : String)
    (co : GenContentRequest → Except Unit GenContentResponse)
    (r : GenImagesResponse)
    (hp : isBlank s.promptValue = false) :
    (generate s Mode.textToImage style ar co (fun _ => Except.ok r)).calls =
      [RemoteCall.images
        { model := textToImageModel,
          prompt :=
            if style = "" then s.promptValue
            else style ++ ", " ++ s.promptValue,
          numberOfImages := 4, outputMimeType := "image/png",
          aspectRatio := ar, negativePrompt := s.negativePromptValue }] ∧
    (generate s Mode.textToImage style ar co
        (fun _ => Except.ok r)).finalState.gallery =
      r.generatedImages.map
        (fun gi => "data:image/png;base64," ++ gi.image.imageBytes) := by
  by_cases hs : style = ""
  · subst hs
    constructor <;> simp [generate, hp, strFalsy]
  · have hsf : strFalsy style = false := by
      rcases h : strFalsy style with _ | _
      · rfl
      · exact absurd ((strFalsy_eq_true_iff style).mp h) hs
    constructor <;> simp [generate, hp, hsf, hs]

/-- Closed instance of `generate_textToImage_request_and_gallery`:
prompt `"a red bicycle"` with style `"Oil painting"` yields final
prompt `"Oil painting, a red bicycle"` and two gallery entries for a
two-image stub response. -/
theorem generate_textToImage_request_and_gallery_witness :
    (generate ttiState Mode.textToImage "Oil painting" "1:1" errContentOracle
        (fun _ => Except.ok stubImagesResponse)).calls =
      [RemoteCall.images
        { model := textToImageModel,
          prompt :=
            if ("Oil painting" : String) = "" then ttiState.promptValue
            else "Oil painting" ++ ", " ++ ttiState.promptValue,
          numberOfImages := 4, outputMimeType := "image/png",
          aspectRatio := "1:1",
          negativePrompt := ttiState.negativePromptValue }] ∧
    (generate ttiState Mode.textToImage "Oil painting" "1:1" errContentOracle
        (fun _ => Except.ok stubImagesResponse)).finalState.gallery =
      stubImagesResponse.generatedImages.map
        (fun gi => "data:image/png;base64," ++ gi.image.imageBytes) :=
  generate_textToImage_request_and_gallery ttiState "Oil painting" "1:1"
    errContentOracle stubImagesResponse (by decide)

/-- C6: for ImageUpscale and FaceSwap submissions that pass
validation, the text part of the request is the fixed canonical
instruction, independent of the prompt input (the request below never
mentions `promptValue`); in FaceSwap the parts are exactly
[source inline image, target inline image, fixed instruction text]. -/
theorem generate_fixed_instruction_requests (s : AppState)
    (style ar : String)
    (co : GenContentRequest → Except Unit GenContentResponse)
    (io : GenImagesRequest → Except Unit GenImagesResponse)
    (hup : falsy s.uploadedImageBase64 = false ∧
      falsy s.uploadedImageMimeType = false)
    (hfs : falsy s.sourceImageBase64 = false ∧
      falsy s.targetImageBase64 = false) :
    (generate s Mode.imageUpscale style ar co io).calls =
      [RemoteCall.content
        { model := imageEditModel,
          parts := [
            { inlineData := some { data := s.uploadedImageBase64,
                                   mimeType := s.uploadedImageMimeType },
              text := none },
            { inlineData := none, text := some upscaleInstruction } ],
          responseModalities := [Modality.IMAGE, Modality.TEXT] }] ∧
    (generate s Mode.faceSwap style ar co io).calls =
      [RemoteCall.content
        { model := imageEditModel,
          parts := [
            { inlineData := some { data := s.sourceImageBase64,
                                   mimeType := s.sourceImageMimeType },
              text := none },
            { inlineData := some { data := s.targetImageBase64,
                                   mimeType := s.targetImageMimeType },
              text := none },
            { inlineData := none, text := some faceSwapInstruction } ],
          responseModalities := [Modality.IMAGE, Modality.TEXT] }] := by
  obtain ⟨hu1, hu2⟩ := hup
  obtain ⟨hf1, hf2⟩ := hfs
  constructor
  · simp only [generate, hu1, hu2]
    rcases hco : (co
      { model := imageEditModel,
        parts := [
          { inlineData := some { data := s.uploadedImageBase64,
                                 mimeType := s.uploadedImageMimeType },
            text := none },
          { inlineData := none, text := some upscaleInstruction } ],
        responseModalities := [Modality.IMAGE, Modality.TEXT] }) with r | r
    · simp [hco]
    · rcases hex : extractInlineUrls r with e | urls <;> simp [hco, hex]
  · simp only [generate, hf1, hf2]
    rcases hco : (co
      { model := imageEditModel,
        parts := [
          { inlineData := some { data := s.sourceImageBase64,
                                 mimeType := s.sourceImageMimeType },
            text := none },
          { inlineData := some { data := s.targetImageBase64,
                                 mimeType := s.targetImageMimeType },
            text := none },
          { inlineData := none, text := some faceSwapInstruction } ],
        responseModalities := [Modality.IMAGE, Modality.TEXT] }) with r | r
    · simp [hco]
    · rcases hex : extractInlineUrls r with e | urls <;> simp [hco, hex]

/-- Closed instance of `generate_fixed_instruction_requests` on a
state with every slot filled and a throwing oracle. -/
theorem generate_fixed_instruction_requests_witness :
    (generate fullState Mode.imageUpscale "" "1:1" errContentOracle
        errImagesOracle).calls =
      [RemoteCall.content
        { model := imageEditModel,
          parts := [
            { inlineData := some { data := fullState.uploadedImageBase64,
                                   mimeType := fullState.uploadedImageMimeType },
              text := none },
            { inlineData := none, text := some upscaleInstruction } ],
          responseModalities := [Modality.IMAGE, Modality.TEXT] }] ∧
    (generate fullState Mode.faceSwap "" "1:1" errContentOracle
        errImagesOracle).calls =
      [RemoteCall.content
        { model := imageEditModel,
          parts := [
            { inlineData := some { data := fullState.sourceImageBase64,
                                   mimeType := fullState.sourceImageMimeType },
              text := none },
            { inlineData := some { data := fullState.targetImageBase64,
                                   mimeType := fullState.targetImageMimeType },
              text := none },
            { inlineData := none, text := some faceSwapInstruction } ],
          responseModalities := [Modality.IMAGE, Modality.TEXT] }] :=
  generate_fixed_instruction_requests fullState "" "1:1" errContentOracle
    errImagesOracle ⟨by decide, by decide⟩ ⟨by decide, by decide⟩

/-- C7: on every exit path of `generate()` the loading indicator is
cleared by the time it finishes; and when the remote call throws (both
oracles error) while validation passed (a call was made), exactly one
generic failure alert is shown and exactly one call was attempted (no
retry). -/
theorem generate_loading_cleared_and_single_error (s : AppState) (m : Mode)
    (style ar : String)
    (co : GenContentRequest → Except Unit GenContentResponse)
    (io : GenImagesRequest → Except Unit GenImagesResponse) :
    (generate s m style ar co io).finalState.loading = false ∧
    ((∀ q, co q = Except.error ()) → (∀ q, io q = Except.error ()) →
      (generate s m style ar co io).calls ≠ [] →
      (generate s m style ar co io).alerts = [genericErrorMsg] ∧
      (generate s m style ar co io).calls.length = 1) := by
  constructor
  · cases m <;> simp only [generate] <;> repeat' (first | rfl | split)
  · intro hco hio hne
    cases m with
    | textToImage =>
      by_cases hb : isBlank s.promptValue = true
      · simp [generate, hb] at hne
      · simp only [Bool.not_eq_true] at hb
        constructor <;> simp [generate, hb, hio]
    | imageEdit =>
      by_cases himg :
          (falsy s.uploadedImageBase64 || falsy s.uploadedImageMimeType) = true
      · simp [generate, himg] at hne
      · simp only [Bool.not_eq_true] at himg
        by_cases hb : isBlank s.promptValue = true
        · simp [generate, himg, hb] at hne
        · simp only [Bool.not_eq_true] at hb
          constructor <;> simp [generate, himg, hb, hco]
    | imageUpscale =>
      by_cases himg :
          (falsy s.uploadedImageBase64 || falsy s.uploadedImageMimeType) = true
      · simp [generate, himg] at hne
      · simp only [Bool.not_eq_true] at himg
        constructor <;> simp [generate, himg, hco]
    | faceSwap =>
      by_cases himg :
          (falsy s.sourceImageBase64 || falsy s.targetImageBase64) = true
      · simp [generate, himg] at hne
      · simp only [Bool.not_eq_true] at himg
        constructor <;> simp [generate, himg, hco]

/-- Closed instance of `generate_loading_cleared_and_single_error`: a
valid TextToImage submission against a throwing oracle ends with the
loading flag cleared, one generic alert, and a single attempted call. -/
theorem generate_loading_cleared_and_single_error_witness :
    (generate ttiState Mode.textToImage "" "1:1" errContentOracle
        errImagesOracle).finalState.loading = false ∧
    (generate ttiState Mode.textToImage "" "1:1" errContentOracle
        errImagesOracle).alerts = [genericErrorMsg] ∧
    (generate ttiState Mode.textToImage "" "1:1" errContentOracle
        errImagesOracle).calls.length = 1 := by
  have h := generate_loading_cleared_and_single_error ttiState Mode.textToImage
    "" "1:1" errContentOracle errImagesOracle
  have h2 := h.2 (fun _ => rfl) (fun _ => rfl) (by decide)
  exact ⟨h.1, h2.1, h2.2⟩

/-- C9: `generate()` empties the gallery before checking any mode
precondition, so a submission that makes no remote call (failed
validation) still finishes with an empty gallery, erasing any
previously rendered results. -/
theorem generate_failed_validation_empties_gallery (s : AppState) (m : Mode)
    (style ar : String)
    (co : GenContentRequest → Except Unit GenContentResponse)
    (io : GenImagesRequest → Except Unit GenImagesResponse)
    (hfail : (generate s m style ar co io).calls = []) :
    (generate s m style ar co io).finalState.gallery = [] := by
  cases m with
  | textToImage =>
    by_cases hb : isBlank s.promptValue = true
    · simp [generate, hb]
    · simp only [Bool.not_eq_true] at hb
      rcases hio : (io
      { model := textToImageModel,
          prompt := if strFalsy style then s.promptValue
                    else style ++ ", " ++ s.promptValue,
          numberOfImages := 4, outputMimeType := "image/png",
          aspectRatio := ar,
          negativePrompt := s.negativePromptValue }) with r | r <;>
        simp [generate, hb, hio] at hfail
  | imageEdit =>
    by_cases himg :
        (falsy s.uploadedImageBase64 || falsy s.uploadedImageMimeType) = true
    · simp [generate, himg]
    · simp only [Bool.not_eq_true] at himg
      by_cases hb : isBlank s.promptValue = true
      · simp [generate, himg, hb]
      · simp only [Bool.not_eq_true] at hb
        rcases hco : (co
      { model := imageEditModel,
            parts := [
              { inlineData := some { data := s.uploadedImageBase64,
                                     mimeType := s.uploadedImageMimeType },
                text := none },
              { inlineData := none, text := some s.promptValue } ],
            responseModalities := [Modality.IMAGE, Modality.TEXT] }) with r | r
        · simp [generate, himg, hb, hco] at hfail
        · rcases hex : extractInlineUrls r with e | urls <;>
            simp [generate, himg, hb, hco, hex] at hfail
  | imageUpscale =>
    by_cases himg :
        (falsy s.uploadedImageBase64 || falsy s.uploadedImageMimeType) = true
    · simp [generate, himg]
    · simp only [Bool.not_eq_true] at himg
      rcases hco : (co
      { model := imageEditModel,
          parts := [
            { inlineData := some { data := s.uploadedImageBase64,
                                   mimeType := s.uploadedImageMimeType },
              text := none },
            { inlineData := none, text := some upscaleInstruction } ],
          responseModalities := [Modality.IMAGE, Modality.TEXT] }) with r | r
      · simp [generate, himg, hco] at hfail
      · rcases hex : extractInlineUrls r with e | urls <;>
          simp [generate, himg, hco, hex] at hfail
  | faceSwap =>
    by_cases himg :
        (falsy s.sourceImageBase64 || falsy s.targetImageBase64) = true
    · simp [generate, himg]
    · simp only [Bool.not_eq_true] at himg
      rcases hco : (co
      { model := imageEditModel,
          parts := [
            { inlineData := some { data := s.sourceImageBase64,
                                   mimeType := s.sourceImageMimeType },
              text := none },
            { inlineData := some { data := s.targetImageBase64,
                                   mimeType := s.targetImageMimeType },
              text := none },
            { inlineData := none, text := some faceSwapInstruction } ],
          responseModalities := [Modality.IMAGE, Modality.TEXT] }) with r | r
      · simp [generate, himg, hco] at hfail
      · rcases hex : extractInlineUrls r with e | urls <;>
          simp [generate, himg, hco, hex] at hfail

/-- Closed instance of `generate_failed_validation_empties_gallery`: a
blank-prompt submission over a non-empty gallery leaves it empty. -/
theorem generate_failed_validation_empties_gallery_witness :
    (generate { baseState with gallery := ["data:image/png;base64,T0xE"] }
        Mode.textToImage "" "1:1" errContentOracle
        errImagesOracle).finalState.gallery = [] :=
  generate_failed_validation_empties_gallery
    { baseState with gallery := ["data:image/png;base64,T0xE"] }
    Mode.textToImage "" "1:1" errContentOracle errImagesOracle (by decide)

/-- A response with no first candidate, or a first candidate without
content parts, makes the unguarded extraction throw. -/
theorem extractInlineUrls_malformed (r : GenContentResponse)
    (hbad : r.candidates = none ∨ r.candidates = some [] ∨
      (∃ c cs, r.candidates = some (c :: cs) ∧
        (c.content = none ∨ ∃ ct, c.content = some ct ∧ ct.parts = none))) :
    extractInlineUrls r = .error () := by
  rcases hbad with h | h | ⟨c, cs, h, hc | ⟨ct, hct, hparts⟩⟩ <;>
    simp [extractInlineUrls, *]

/-- C10: in the content-edit paths, a response with no candidates (or
a first candidate without content parts) makes the unguarded
extraction throw; the surrounding handler catches it, so the cycle
ends with the single generic alert, an empty gallery, and the loading
indicator cleared — the page never crashes. -/
theorem generate_malformed_response_safe (s : AppState) (m : Mode)
    (style ar : String)
    (io : GenImagesRequest → Except Unit GenImagesResponse)
    (r : GenContentResponse)
    (hok : editPrecondOk s m)
    (hbad : r.candidates = none ∨ r.candidates = some [] ∨
      (∃ c cs, r.candidates = some (c :: cs) ∧
        (c.content = none ∨ ∃ ct, c.content = some ct ∧ ct.parts = none))) :
    (generate s m style ar (fun _ => Except.ok r) io).alerts =
      [genericErrorMsg] ∧
    (generate s m style ar (fun _ => Except.ok r) io).finalState.gallery = [] ∧
    (generate s m style ar
        (fun _ => Except.ok r) io).finalState.loading = false := by
  have hex := extractInlineUrls_malformed r hbad
  cases m with
  | textToImage => exact hok.elim
  | imageEdit =>
    obtain ⟨h1, h2, h3⟩ := hok
    refine ⟨?_, ?_, ?_⟩ <;> simp [generate, h1, h2, h3, hex]
  | imageUpscale =>
    obtain ⟨h1, h2⟩ := hok
    refine ⟨?_, ?_, ?_⟩ <;> simp [generate, h1, h2, hex]
  | faceSwap =>
    obtain ⟨h1, h2⟩ := hok
    refine ⟨?_, ?_, ?_⟩ <;> simp [generate, h1, h2, hex]

/-- Closed instance of `generate_malformed_response_safe`: an
ImageEdit submission whose stub response has an empty candidate list
ends with one generic alert, an empty gallery, and loading cleared. -/
theorem generate_malformed_response_safe_witness :
    (generate editState Mode.imageEdit "" "1:1"
        (fun _ => Except.ok emptyCandidatesResponse)
        errImagesOracle).alerts = [genericErrorMsg] ∧
    (generate editState Mode.imageEdit "" "1:1"
        (fun _ => Except.ok emptyCandidatesResponse)
        errImagesOracle).finalState.gallery = [] ∧
    (generate editState Mode.imageEdit "" "1:1"
        (fun _ => Except.ok emptyCandidatesResponse)
        errImagesOracle).finalState.loading = false :=
  generate_malformed_response_safe editState Mode.imageEdit "" "1:1"
    errImagesOracle emptyCandidatesResponse
    ⟨by decide, by decide, by decide⟩ (Or.inr (Or.inl rfl))

end ImagenApp
